import Mathlib

/-!
Shallow embedding of the PyFstat SNR / covering-band core
(`pyfstat/snr.py` and `pyfstat/utils/runlalsuite.py`).

Python floats are modelled as exact rationals; where NaN semantics matter
a dedicated `LalFloat` type with an explicit NaN constructor is used.
External lalsuite routines (ComputeMultiAMCoeffs, ComputeOptimalSNR2FromMmunu,
CWSignalCoveringBand, NormalizeSkyPosition) are parameters of the embedded
functions: the theorems quantify over them, so only the repository code, not
lalsuite, is being verified.
-/

set_option maxRecDepth 4000

/-- Python exception kinds raised by the embedded code paths. -/
inductive PyError where
  | valueError (msg : String)
  | attributeError (msg : String)
  | runtimeError (msg : String)
  | indexError
  | zeroDivisionError
deriving DecidableEq

/-- Embeds `SignalToNoiseRatio._convert_amplitude_parameters` (snr.py lines
245-261). Arguments model the Python keyword arguments, `none` standing for
the Python default `None`. The two completeness booleans and the equality
test mirror the source lines 250-254; the conversion branch mirrors lines
256-259 (in that branch both options are `some`, so `getD` reads the given
values) and the fall-through returns the inputs unchanged (line 261). -/
def convert_amplitude_parameters (h0 cosi aPlus aCross : Option ℚ) :
    Except PyError (Option ℚ × Option ℚ) :=
  let h0_cosi := h0.isSome && cosi.isSome
  let aPlusCross := aPlus.isSome && aCross.isSome
  if h0_cosi == aPlusCross then
    .error (.valueError "Need either (h0, cosi) or (aPlus, aCross), but not both")
  else if h0_cosi then
    .ok (some (1/2 * h0.getD 0 * (1 + (cosi.getD 0)^2)), some (h0.getD 0 * cosi.getD 0))
  else
    .ok (aPlus, aCross)

/-- One element of `MultiDetectorStateSeries.data`; only the `deltaT`
attribute is read by the embedded code (snr.py line 57). -/
structure DetectorStateData where
  deltaT : ℚ
deriving DecidableEq

/-- Minimal model of `lalpulsar.MultiDetectorStateSeries`: the `data` list
whose first element supplies `Tsft`. -/
structure MultiDetectorStateSeries where
  data : List DetectorStateData
deriving DecidableEq

/-- Opaque token standing for a `lalpulsar.MultiNoiseWeights` object; the
embedded code only tests it against `None`. -/
inductive NoiseWeights where
  | mk
deriving DecidableEq

/-- Attribute state of a constructed `SignalToNoiseRatio` object after
`__attrs_post_init__` (snr.py lines 51-70): the three attrs fields plus the
derived `Tsft` and, on the flat-noise-floor path, `Sinv_Tsft`. -/
structure SNRState where
  detector_states : MultiDetectorStateSeries
  noise_weights : Option NoiseWeights
  assumeSqrtSX : Option ℚ
  Tsft : ℚ
  Sinv_Tsft : Option ℚ
deriving DecidableEq

/-- Embeds `SignalToNoiseRatio.__attrs_post_init__` (snr.py lines 55-70).
Line 57 reads `detector_states.data[0].deltaT`, which in Python raises
IndexError on an empty list; the branch structure on `noise_weights` and
`assumeSqrtSX` mirrors lines 60-70, computing `Sinv_Tsft = Tsft / assumeSqrtSX^2`
on the flat-floor path (line 62). On that path, when the divisor
`assumeSqrtSX^2` is zero, Python float division raises ZeroDivisionError,
so the zero divisor is an explicit error case here. -/
def attrs_post_init (detector_states : MultiDetectorStateSeries)
    (noise_weights : Option NoiseWeights) (assumeSqrtSX : Option ℚ) :
    Except PyError SNRState :=
  match detector_states.data with
  | [] => .error .indexError
  | d :: _ =>
    let Tsft := d.deltaT
    match noise_weights, assumeSqrtSX with
    | none, some s =>
        if s^2 = 0 then .error .zeroDivisionError
        else .ok ⟨detector_states, none, some s, Tsft, some (Tsft / s^2)⟩
    | none, none =>
        .error (.valueError
          "Need either assumeSqrtSX or noise_weights to account for background noise")
    | some _, some _ =>
        .error (.valueError
          "Need either assumeSqrtSX or noise_weights to account for background noise")
    | some w, none =>
        .ok ⟨detector_states, some w, none, Tsft, none⟩

/-- Coordinate system tag of a `lal.SkyPosition`. -/
inductive CoordinateSystem where
  | equatorial
  | other
deriving DecidableEq

/-- Model of `lal.SkyPosition` as assembled in `compute_Mmunu`
(snr.py lines 228-231). -/
structure SkyPosition where
  longitude : ℚ
  latitude : ℚ
  system : CoordinateSystem
deriving DecidableEq

/-- Model of `lalpulsar.AntennaPatternMatrix` (the `Mmunu` field of the
`MultiAMCoeffs` returned by ComputeMultiAMCoeffs), with the `Sinv_Tsft`
normalization attribute the code may overwrite (snr.py line 241). -/
structure Mmunu where
  Ad : ℚ
  Bd : ℚ
  Cd : ℚ
  Ed : ℚ
  Sinv_Tsft : ℚ
deriving DecidableEq

/-- Model of `lalpulsar.PulsarAmplitudeParams` as filled in `compute_snr2`
(snr.py lines 172-176). -/
structure PulsarAmplitudeParams where
  psi : ℚ
  phi0 : ℚ
  aPlus : ℚ
  aCross : ℚ
deriving DecidableEq

/-- Embeds `SignalToNoiseRatio.compute_Mmunu` (snr.py lines 208-243).
The external routines are parameters: `normalizeSky` models
`lal.NormalizeSkyPosition` and `computeAM` models the `Mmunu` field of
`lalpulsar.ComputeMultiAMCoeffs`. Faithful to the source, the call
`lal.NormalizeSkyPosition(sky.longitude, sky.latitude)` (line 232) receives
the two float values and its returned pair is bound to nothing, so the
`sky` record passed on to `computeAM` still holds the raw inputs; Python
float immutability makes in-place mutation of `sky` impossible. When
`noise_weights` is None the state attribute `Sinv_Tsft` is written onto the
result (lines 240-241). -/
def compute_Mmunu
    (computeAM : MultiDetectorStateSeries → Option NoiseWeights → SkyPosition → Mmunu)
    (normalizeSky : ℚ → ℚ → ℚ × ℚ)
    (self : SNRState) (Alpha Delta : ℚ) : Mmunu :=
  let sky : SkyPosition := ⟨Alpha, Delta, .equatorial⟩
  let _norm := normalizeSky sky.longitude sky.latitude
  let M := computeAM self.detector_states self.noise_weights sky
  match self.noise_weights with
  | none => { M with Sinv_Tsft := (self.Sinv_Tsft).getD M.Sinv_Tsft }
  | some _ => M

/-- Embeds `SignalToNoiseRatio.compute_snr2` (snr.py lines 124-180):
convert the amplitude parameters (line 168), fill `PulsarAmplitudeParams`
(lines 172-176; in every successful conversion both options are `some`, so
`getD` reads the converted values), compute `Mmunu` (line 178) and return
the value of the external `lalpulsar.ComputeOptimalSNR2FromMmunu`
(line 180) unchanged. -/
def compute_snr2
    (computeOptimalSNR2FromMmunu : PulsarAmplitudeParams → Mmunu → ℚ)
    (computeAM : MultiDetectorStateSeries → Option NoiseWeights → SkyPosition → Mmunu)
    (normalizeSky : ℚ → ℚ → ℚ × ℚ)
    (self : SNRState) (Alpha Delta psi phi0 : ℚ)
    (h0 cosi aPlus aCross : Option ℚ) : Except PyError ℚ :=
  match convert_amplitude_parameters h0 cosi aPlus aCross with
  | .error e => .error e
  | .ok (aP, aC) =>
    let Aphys : PulsarAmplitudeParams := ⟨psi, phi0, aP.getD 0, aC.getD 0⟩
    let M := compute_Mmunu computeAM normalizeSky self Alpha Delta
    .ok (computeOptimalSNR2FromMmunu Aphys M)

/-- Embeds `SignalToNoiseRatio.compute_twoF` (snr.py lines 182-206): forward
everything to `compute_snr2`, then return
`(snr2 + 4, sqrt(8 + 4 * snr2))`, where `sqrtFn` models `np.sqrt`. -/
def compute_twoF
    (sqrtFn : ℚ → ℚ)
    (computeOptimalSNR2FromMmunu : PulsarAmplitudeParams → Mmunu → ℚ)
    (computeAM : MultiDetectorStateSeries → Option NoiseWeights → SkyPosition → Mmunu)
    (normalizeSky : ℚ → ℚ → ℚ × ℚ)
    (self : SNRState) (Alpha Delta psi phi0 : ℚ)
    (h0 cosi aPlus aCross : Option ℚ) : Except PyError (ℚ × ℚ) :=
  match compute_snr2 computeOptimalSNR2FromMmunu computeAM normalizeSky
      self Alpha Delta psi phi0 h0 cosi aPlus aCross with
  | .error e => .error e
  | .ok snr2 => .ok (snr2 + 4, sqrtFn (8 + 4 * snr2))

/-- Concrete antenna-pattern stand-in used by witnesses: records the sky
longitude it was called with in the `Ad` entry. -/
def am0 : MultiDetectorStateSeries → Option NoiseWeights → SkyPosition → Mmunu :=
  fun _ _ sky => ⟨sky.longitude, 0, 0, 0, 0⟩

/-- Concrete stand-in for `lal.NormalizeSkyPosition` used by witnesses: a
pure function under which the out-of-range longitude 8 normalizes to 1. -/
def normalize0 : ℚ → ℚ → ℚ × ℚ :=
  fun a d => (a - 7, d)

/-- Concrete post-init state used by witnesses: one detector state with
`deltaT = 1800`, flat noise floor `assumeSqrtSX = 1`, so `Sinv_Tsft = 1800`. -/
def st0 : SNRState :=
  ⟨⟨[⟨1800⟩]⟩, none, some 1, 1800, some 1800⟩

/-- Concrete external-SNR stand-in returning 0. -/
def snr2zero : PulsarAmplitudeParams → Mmunu → ℚ := fun _ _ => 0

/-- Concrete external-SNR stand-in returning the negative value -1. -/
def snr2neg : PulsarAmplitudeParams → Mmunu → ℚ := fun _ _ => -1

/-- Concrete stand-in for `np.sqrt` used by witnesses (its values are
irrelevant to the statements, which only track where it is applied). -/
def sqrtFn0 : ℚ → ℚ := fun q => q

/-- IEEE-style float value: either NaN or an exact rational. Used where the
code explicitly tests for NaN (get_covering_band). -/
inductive LalFloat where
  | nan
  | val (q : ℚ)
deriving DecidableEq

/-- Models `np.isnan`. -/
def LalFloat.isnan : LalFloat → Bool
  | .nan => true
  | .val _ => false

/-- IEEE comparison `<=`: any comparison involving NaN is false. -/
def LalFloat.le : LalFloat → LalFloat → Bool
  | .val x, .val y => decide (x ≤ y)
  | _, _ => false

/-- IEEE comparison `<`: any comparison involving NaN is false. -/
def LalFloat.lt : LalFloat → LalFloat → Bool
  | .val x, .val y => decide (x < y)
  | _, _ => false

/-- Model of `lalpulsar.PulsarSpinRange` as filled in get_covering_band
(runlalsuite.py lines 92-99). -/
structure PulsarSpinRange where
  fkdot : ℚ × ℚ × ℚ
  fkdotBand : ℚ × ℚ × ℚ
  refTime : ℚ
deriving DecidableEq

/-- Embeds `get_covering_band` (runlalsuite.py lines 41-114). The external
`lalpulsar.CWSignalCoveringBand` is the parameter `cwSignalCoveringBand`;
the spin range is assembled from the arguments (lines 92-99) and the
returned pair is validated exactly as in lines 103-113: NaN, non-positive,
or inverted pairs raise RuntimeError; anything else is returned. -/
def get_covering_band
    (cwSignalCoveringBand : ℚ → ℚ → PulsarSpinRange → ℚ → ℚ → ℚ → LalFloat × LalFloat)
    (tref tstart tend F0 F1 F2 F0band F1band F2band
      maxOrbitAsini minOrbitPeriod maxOrbitEcc : ℚ) :
    Except PyError (LalFloat × LalFloat) :=
  let psr : PulsarSpinRange := ⟨(F0, F1, F2), (F0band, F1band, F2band), tref⟩
  let r := cwSignalCoveringBand tstart tend psr maxOrbitAsini minOrbitPeriod maxOrbitEcc
  let minCoverFreq := r.1
  let maxCoverFreq := r.2
  if minCoverFreq.isnan || maxCoverFreq.isnan
      || minCoverFreq.le (.val 0) || maxCoverFreq.le (.val 0)
      || maxCoverFreq.lt minCoverFreq then
    .error (.runtimeError "Got invalid pair minCoverFreq, maxCoverFreq from lalpulsar.CWSignalCoveringBand.")
  else
    .ok (minCoverFreq, maxCoverFreq)

/-- Concrete CWSignalCoveringBand stand-in used by the C4 witness. -/
def cb0 : ℚ → ℚ → PulsarSpinRange → ℚ → ℚ → ℚ → LalFloat × LalFloat :=
  fun _ _ _ _ _ _ => (.val 1, .val 2)

/-- Model of a Python dict mapping detector names to timestamp arrays, as
accepted by `DetectorStates.get_multi_detector_states`. -/
structure PyDict where
  entries : List (String × List ℚ)
deriving DecidableEq

/-- Embeds the expression `timestamps.key()` at snr.py line 384. Python
mappings define `keys`, `values` and `items` but no attribute named `key`,
so attribute lookup fails with AttributeError before any call happens. -/
def dict_key_method (_timestamps : PyDict) : Except PyError (List String) :=
  .error (.attributeError "dict object has no attribute key")

/-- Embeds the dictionary branch of
`DetectorStates._parse_timestamps_and_detectors` (snr.py lines 378-385):
with a dict of timestamps and explicit detectors, raise ValueError
(lines 380-381); otherwise evaluate `list(timestamps.key())` (line 384),
which raises AttributeError, before the values are ever read (line 385,
modelled by the unreachable success continuation). -/
def parse_timestamps_and_detectors_dict (timestamps : PyDict)
    (detectors : Option (List String)) :
    Except PyError (List String × List (List ℚ)) :=
  match detectors with
  | some _ => .error (.valueError "timestamps keys are redundant with detectors. ")
  | none =>
    match dict_key_method timestamps with
    | .error e => .error e
    | .ok ks => .ok (ks, timestamps.entries.map Prod.snd)

/-- Embeds the per-element conversion of
`DetectorStates._numpy_array_to_LIGOTimeGPSVector` (snr.py lines 421-427):
seconds = floor(t), nanoseconds = floor(1e9 * (t - seconds)). -/
def numpy_floor_split (t : ℚ) : ℤ × ℤ :=
  (⌊t⌋, ⌊(1000000000 : ℚ) * (t - (⌊t⌋ : ℚ))⌋)

/-- Embeds `DetectorStates._numpy_array_to_LIGOTimeGPSVector`
(snr.py lines 409-431) on a 1D array: each element is floor-split into a
(seconds, nanoseconds) pair and the sampling baseline `deltaT = Tsft or 0`
is attached (for numbers, Python `Tsft or 0` agrees with replacing an
absent value by 0). -/
def numpy_array_to_LIGOTimeGPSVector (numpy_array : List ℚ) (Tsft : Option ℚ) :
    List (ℤ × ℤ) × ℚ :=
  (numpy_array.map numpy_floor_split, Tsft.getD 0)

/-- Python value as it occurs among the generate_loudest_file arguments:
None, an integer (GPS time), or a string (window type or ephemeris path). -/
inductive PyVal where
  | none
  | int (n : ℤ)
  | str (s : String)
deriving DecidableEq

/-- Python truthiness for the modelled values: None is falsy, an integer is
truthy iff nonzero, a string is truthy iff nonempty. -/
def PyVal.truthy : PyVal → Bool
  | .none => false
  | .int n => n != 0
  | .str s => s != ""

/-- Python `dict.update` on insertion-ordered association lists with
distinct keys: existing keys keep their position and take the new value,
new keys are appended in order. -/
def dictUpdate (d e : List (String × PyVal)) : List (String × PyVal) :=
  d.map (fun kv =>
    match e.find? (fun kv2 => kv2.1 == kv.1) with
    | some kv2 => (kv.1, kv2.2)
    | none => kv) ++
  e.filter (fun kv2 => d.all (fun kv => kv.1 != kv2.1))

/-- The `opt_params` dict literal of `generate_loudest_file`
(runlalsuite.py lines 179-185). -/
def opt_params (minStartTime maxStartTime transientWindowType
    earth_ephem sun_ephem : PyVal) : List (String × PyVal) :=
  [("minStartTime", minStartTime),
   ("maxStartTime", maxStartTime),
   ("transient-WindowType", transientWindowType),
   ("ephemEarth", earth_ephem),
   ("ephemSun", sun_ephem)]

/-- The `CFSv2_params` dict of `generate_loudest_file` (runlalsuite.py
lines 173-186): the base entries (DataFiles wrapped in double quotes,
outputLoudest, refTime), updated with max_params, then updated with the
truthy-filtered optional parameters (line 186 keeps a pair only `if val`). -/
def CFSv2_params (sftfilepattern loudest_file : String) (tref : PyVal)
    (max_params : List (String × PyVal))
    (minStartTime maxStartTime transientWindowType earth_ephem sun_ephem : PyVal) :
    List (String × PyVal) :=
  let base := [("DataFiles", PyVal.str ("\"" ++ sftfilepattern ++ "\"")),
               ("outputLoudest", PyVal.str loudest_file),
               ("refTime", tref)]
  dictUpdate (dictUpdate base max_params)
    ((opt_params minStartTime maxStartTime transientWindowType
        earth_ephem sun_ephem).filter (fun kv => kv.2.truthy))

/-- Renders a value the way Python string interpolation would inside the
f-string of runlalsuite.py line 187. -/
def renderPyVal : PyVal → String
  | .none => "None"
  | .int n => toString n
  | .str s => s

/-- The per-parameter command-line fragments joined at runlalsuite.py
line 187: one `--key=val` string per CFSv2_params entry. -/
def loudest_cmd_args (sftfilepattern loudest_file : String) (tref : PyVal)
    (max_params : List (String × PyVal))
    (minStartTime maxStartTime transientWindowType earth_ephem sun_ephem : PyVal) :
    List String :=
  (CFSv2_params sftfilepattern loudest_file tref max_params
      minStartTime maxStartTime transientWindowType earth_ephem sun_ephem).map
    (fun kv => "--" ++ kv.1 ++ "=" ++ renderPyVal kv.2)

/- ------------------------------------------------------------------ -/
/- Theorems -/
/- ------------------------------------------------------------------ -/

/-- C1 counterexample: a partially filled h0/cosi basis (h0 present, cosi
absent) combined with a complete aPlus/aCross basis does NOT raise; the call
succeeds and returns the aPlus/aCross values, contradicting the claim that
every partially filled combination raises ValueError. -/
theorem C1_counterexample :
    convert_amplitude_parameters (some 1) none (some 2) (some 3) =
      .ok (some 2, some 3) := rfl

/-- C1 (amended): the conversion raises ValueError exactly when the two pairs
have the same completeness status, that is, when (h0 and cosi both present)
holds iff (aPlus and aCross both present) holds. In particular both complete
bases, neither, or two partially filled pairs raise; exactly one complete
basis succeeds, even when the other pair is partially filled. -/
theorem C1_amended (h0 cosi aPlus aCross : Option ℚ) :
    (∃ e, convert_amplitude_parameters h0 cosi aPlus aCross = .error e) ↔
      ((h0.isSome ∧ cosi.isSome) ↔ (aPlus.isSome ∧ aCross.isSome)) := by
  cases h0 <;> cases cosi <;> cases aPlus <;> cases aCross <;>
    simp [convert_amplitude_parameters]

/-- C1 amended witness: at the concrete input (h0 = 1, cosi = 1, aPlus and
aCross absent) the completeness statuses differ and indeed no error is
raised. -/
theorem C1_amended_witness :
    ¬((((some (1:ℚ)).isSome ∧ (some (1:ℚ)).isSome) ↔
        ((none : Option ℚ).isSome ∧ (none : Option ℚ).isSome))) ∧
    ¬(∃ e, convert_amplitude_parameters (some 1) (some 1) none none = .error e) := by
  constructor
  · decide
  · intro h
    exact (by decide : ¬((((some (1:ℚ)).isSome ∧ (some (1:ℚ)).isSome) ↔
        ((none : Option ℚ).isSome ∧ (none : Option ℚ).isSome))))
      ((C1_amended (some 1) (some 1) none none).mp h)

/-- C6: with h0 and cosi given and aPlus, aCross absent, the conversion
returns exactly aPlus = 0.5 * h0 * (1 + cosi^2) and aCross = h0 * cosi; in
particular for cosi = 1 it returns aPlus = h0 and aCross = h0. -/
theorem C6_convert_formulas :
    (∀ h0 cosi : ℚ, convert_amplitude_parameters (some h0) (some cosi) none none =
      .ok (some (1/2 * h0 * (1 + cosi^2)), some (h0 * cosi))) ∧
    (∀ h0 : ℚ, convert_amplitude_parameters (some h0) (some 1) none none =
      .ok (some h0, some h0)) := by
  constructor
  · intro h0 cosi
    simp [convert_amplitude_parameters]
  · intro h0
    simp [convert_amplitude_parameters]
    ring

/-- C8: the sky position is NOT normalized before use. The call
`lal.NormalizeSkyPosition(sky.longitude, sky.latitude)` receives two
immutable floats and its return value is discarded, so `compute_Mmunu`
hands the raw (Alpha, Delta) to the antenna-pattern routine. Concretely,
under a normalizer for which the out-of-range longitude 8 normalizes to 1
and an antenna-pattern function that depends on the longitude, the
out-of-range input and its normalized equivalent give different matrices;
in general the result never depends on the normalizer at all. -/
theorem C8_sky_normalization_discarded :
    normalize0 8 0 = (1, 0) ∧
    compute_Mmunu am0 normalize0 st0 8 0 ≠ compute_Mmunu am0 normalize0 st0 1 0 ∧
    (∀ (computeAM : MultiDetectorStateSeries → Option NoiseWeights → SkyPosition → Mmunu)
       (n1 n2 : ℚ → ℚ → ℚ × ℚ) (self : SNRState) (Alpha Delta : ℚ),
      compute_Mmunu computeAM n1 self Alpha Delta =
        compute_Mmunu computeAM n2 self Alpha Delta) := by
  refine ⟨by norm_num [normalize0], by decide, fun computeAM n1 n2 self Alpha Delta => rfl⟩

/-- C3 counterexample: with an external ComputeOptimalSNR2FromMmunu whose
value is the negative number -1, compute_snr2 returns .ok (-1) to the
caller instead of raising any error: the claimed NaN/negativity check does
not exist in compute_snr2. -/
theorem C3_counterexample :
    compute_snr2 snr2neg am0 normalize0 st0 0 0 0 0 (some 1) (some 1) none none =
      .ok (-1) := rfl

/-- C3 (amended): compute_snr2 performs no check on the SNR^2 value at all:
for every value the external ComputeOptimalSNR2FromMmunu routine returns,
negative or not, compute_snr2 returns exactly that value to the caller (the
defensive finite/positive check described by the spec exists only in
get_covering_band). -/
theorem C3_amended (snr2val : ℚ)
    (computeAM : MultiDetectorStateSeries → Option NoiseWeights → SkyPosition → Mmunu)
    (normalizeSky : ℚ → ℚ → ℚ × ℚ) (self : SNRState)
    (Alpha Delta psi phi0 h0 cosi : ℚ) :
    compute_snr2 (fun _ _ => snr2val) computeAM normalizeSky self
      Alpha Delta psi phi0 (some h0) (some cosi) none none = .ok snr2val := by
  simp [compute_snr2, convert_amplitude_parameters]

/-- C5: whenever compute_snr2 returns a value s, compute_twoF on the same
input returns exactly expected_2F = 4 + s and stdev_2F = sqrt(8 + 4 * s),
where sqrt is the square-root routine (np.sqrt). -/
theorem C5_twoF
    (sqrtFn : ℚ → ℚ)
    (snr2fn : PulsarAmplitudeParams → Mmunu → ℚ)
    (computeAM : MultiDetectorStateSeries → Option NoiseWeights → SkyPosition → Mmunu)
    (normalizeSky : ℚ → ℚ → ℚ × ℚ) (self : SNRState)
    (Alpha Delta psi phi0 : ℚ) (h0 cosi aPlus aCross : Option ℚ) (s : ℚ)
    (h : compute_snr2 snr2fn computeAM normalizeSky self
      Alpha Delta psi phi0 h0 cosi aPlus aCross = .ok s) :
    compute_twoF sqrtFn snr2fn computeAM normalizeSky self
      Alpha Delta psi phi0 h0 cosi aPlus aCross = .ok (4 + s, sqrtFn (8 + 4 * s)) := by
  unfold compute_twoF
  rw [h]
  show Except.ok (s + 4, sqrtFn (8 + 4 * s)) = Except.ok (4 + s, sqrtFn (8 + 4 * s))
  rw [add_comm s 4]

/-- C5 witness: with the external SNR^2 routine returning 0, compute_snr2
returns .ok 0 at a concrete input and compute_twoF there returns
expected_2F = 4 + 0 and stdev_2F = sqrt(8 + 4 * 0). -/
theorem C5_twoF_witness :
    compute_snr2 snr2zero am0 normalize0 st0 0 0 0 0 (some 1) (some 1) none none =
      .ok 0 ∧
    compute_twoF sqrtFn0 snr2zero am0 normalize0 st0 0 0 0 0
      (some 1) (some 1) none none = .ok (4 + 0, sqrtFn0 (8 + 4 * 0)) :=
  ⟨rfl, C5_twoF sqrtFn0 snr2zero am0 normalize0 st0 0 0 0 0
    (some 1) (some 1) none none 0 rfl⟩

/-- C7: for a SignalToNoiseRatio whose detector states are nonempty,
construction with neither noise_weights nor assumeSqrtSX, or with both,
raises ValueError; construction with exactly one of the two succeeds (for a
nonzero flat noise floor, where Python float division is defined), and on
the flat-floor path it sets Sinv_Tsft = Tsft / assumeSqrtSX^2 with
Tsft = detector_states.data[0].deltaT. -/
theorem C7_post_init (d : DetectorStateData) (rest : List DetectorStateData)
    (w : NoiseWeights) (s : ℚ) (hs : s ≠ 0) :
    (∃ m, attrs_post_init ⟨d :: rest⟩ none none = .error (.valueError m)) ∧
    (∃ m, attrs_post_init ⟨d :: rest⟩ (some w) (some s) = .error (.valueError m)) ∧
    attrs_post_init ⟨d :: rest⟩ none (some s) =
      .ok ⟨⟨d :: rest⟩, none, some s, d.deltaT, some (d.deltaT / s^2)⟩ ∧
    attrs_post_init ⟨d :: rest⟩ (some w) none =
      .ok ⟨⟨d :: rest⟩, some w, none, d.deltaT, none⟩ := by
  have h2 : ¬(s^2 = 0) := pow_ne_zero 2 hs
  refine ⟨⟨_, rfl⟩, ⟨_, rfl⟩, ?_, rfl⟩
  simp [attrs_post_init, h2]

/-- C7 witness: at one detector state with deltaT = 1800 and the nonzero
flat floor assumeSqrtSX = 1, the hypothesis holds and construction behaves
as stated, with Sinv_Tsft = 1800 / 1^2. -/
theorem C7_post_init_witness :
    ((1 : ℚ) ≠ 0) ∧
    ((∃ m, attrs_post_init ⟨[⟨1800⟩]⟩ none none = .error (.valueError m)) ∧
     (∃ m, attrs_post_init ⟨[⟨1800⟩]⟩ (some .mk) (some 1) = .error (.valueError m)) ∧
     attrs_post_init ⟨[⟨1800⟩]⟩ none (some 1) =
       .ok ⟨⟨[⟨1800⟩]⟩, none, some 1, (1800 : ℚ), some ((1800 : ℚ) / 1^2)⟩ ∧
     attrs_post_init ⟨[⟨1800⟩]⟩ (some .mk) none =
       .ok ⟨⟨[⟨1800⟩]⟩, some .mk, none, 1800, none⟩) :=
  ⟨by norm_num, C7_post_init ⟨1800⟩ [] .mk 1 (by norm_num)⟩

/-- C4: whenever get_covering_band returns a pair instead of raising
RuntimeError, both components are non-NaN rationals, both are strictly
positive, and min is at most max. -/
theorem C4_covering_band_valid
    (cwSignalCoveringBand : ℚ → ℚ → PulsarSpinRange → ℚ → ℚ → ℚ → LalFloat × LalFloat)
    (tref tstart tend F0 F1 F2 F0band F1band F2band
      maxOrbitAsini minOrbitPeriod maxOrbitEcc : ℚ) (mn mx : LalFloat)
    (h : get_covering_band cwSignalCoveringBand tref tstart tend F0 F1 F2
      F0band F1band F2band maxOrbitAsini minOrbitPeriod maxOrbitEcc = .ok (mn, mx)) :
    ∃ x y : ℚ, mn = .val x ∧ mx = .val y ∧ 0 < x ∧ 0 < y ∧ x ≤ y := by
  rcases hq : cwSignalCoveringBand tstart tend
      ⟨(F0, F1, F2), (F0band, F1band, F2band), tref⟩
      maxOrbitAsini minOrbitPeriod maxOrbitEcc with ⟨m1, m2⟩
  simp only [get_covering_band, hq] at h
  by_cases hc : (m1.isnan || m2.isnan || m1.le (.val 0) || m2.le (.val 0)
      || m2.lt m1) = true
  · rw [if_pos hc] at h
    exact absurd h (by simp)
  · rw [if_neg hc] at h
    injection h with hpair
    rw [Prod.mk.injEq] at hpair
    obtain ⟨rfl, rfl⟩ := hpair
    cases m1 with
    | nan => simp [LalFloat.isnan] at hc
    | val x =>
      cases m2 with
      | nan => simp [LalFloat.isnan] at hc
      | val y =>
        simp only [LalFloat.isnan, LalFloat.le, LalFloat.lt, Bool.or_eq_true,
          decide_eq_true_eq, not_or, Bool.false_eq_true, not_false_iff,
          true_and, not_le, not_lt] at hc
        refine ⟨x, y, rfl, rfl, ?_, ?_, ?_⟩ <;> tauto

/-- C4 witness: with an external covering-band routine returning the valid
pair (1, 2), get_covering_band returns it and the pair satisfies the
invariant. -/
theorem C4_covering_band_valid_witness :
    get_covering_band cb0 0 0 0 100 0 0 0 0 0 0 0 0 = .ok (.val 1, .val 2) ∧
    ∃ x y : ℚ, LalFloat.val 1 = .val x ∧ LalFloat.val 2 = .val y ∧
      0 < x ∧ 0 < y ∧ x ≤ y :=
  ⟨rfl, C4_covering_band_valid cb0 0 0 0 100 0 0 0 0 0 0 0 0 _ _ rfl⟩

/-- C2: the dictionary-input path of timestamp parsing never succeeds: for
the well-formed mapping from detector H1 to the timestamp list [100] (and
no explicit detectors argument), the code evaluates `timestamps.key()`,
an attribute mappings do not define, and raises AttributeError instead of
deriving the detector names from the keys. -/
theorem C2_dict_branch_attribute_error :
    parse_timestamps_and_detectors_dict ⟨[("H1", [100])]⟩ none =
      .error (.attributeError "dict object has no attribute key") := rfl

/-- C9: for every rational time value t, the floor-split
(seconds, nanoseconds) pair reconstructs t to within one nanosecond:
0 <= t - (seconds + nanoseconds / 1e9) < 1e-9 in exact arithmetic. -/
theorem C9_timestamp_reconstruction (t : ℚ) :
    0 ≤ t - (((numpy_floor_split t).1 : ℚ) + ((numpy_floor_split t).2 : ℚ) / 1000000000) ∧
    t - (((numpy_floor_split t).1 : ℚ) + ((numpy_floor_split t).2 : ℚ) / 1000000000)
      < 1 / 1000000000 := by
  have hpos : (0 : ℚ) < 1000000000 := by norm_num
  have h1 : ((⌊(1000000000 : ℚ) * (t - (⌊t⌋ : ℚ))⌋ : ℤ) : ℚ)
      ≤ (1000000000 : ℚ) * (t - (⌊t⌋ : ℚ)) := Int.floor_le _
  have h2 : (1000000000 : ℚ) * (t - (⌊t⌋ : ℚ))
      < (⌊(1000000000 : ℚ) * (t - (⌊t⌋ : ℚ))⌋ : ℚ) + 1 := Int.lt_floor_add_one _
  constructor
  · have hdiv : ((⌊(1000000000 : ℚ) * (t - (⌊t⌋ : ℚ))⌋ : ℚ)) / 1000000000
        ≤ t - (⌊t⌋ : ℚ) := (div_le_iff₀ hpos).mpr (by linarith)
    simp only [numpy_floor_split]
    linarith
  · have hdiv : t - (⌊t⌋ : ℚ)
        < ((⌊(1000000000 : ℚ) * (t - (⌊t⌋ : ℚ))⌋ : ℚ) + 1) / 1000000000 :=
      (lt_div_iff₀ hpos).mpr (by linarith)
    have hsplit : ((⌊(1000000000 : ℚ) * (t - (⌊t⌋ : ℚ))⌋ : ℚ) + 1) / 1000000000
        = (⌊(1000000000 : ℚ) * (t - (⌊t⌋ : ℚ))⌋ : ℚ) / 1000000000 + 1 / 1000000000 :=
      add_div _ _ _
    simp only [numpy_floor_split]
    linarith

/-- C10: in generate_loudest_file, an optional argument contributes a
command-line entry iff its value is truthy: every falsy value gives the
same CFSv2_params dictionary as None, the keys of the filtered optional
block are exactly those with truthy values, and in particular a start or
end time equal to the integer 0 yields the same command line as None. -/
theorem C10_falsy_options_omitted :
    (∀ (sft lf : String) (tref : PyVal) (mp : List (String × PyVal))
       (m M t e s : PyVal),
      CFSv2_params sft lf tref mp m M t e s =
        CFSv2_params sft lf tref mp
          (if m.truthy then m else .none) (if M.truthy then M else .none)
          (if t.truthy then t else .none) (if e.truthy then e else .none)
          (if s.truthy then s else .none)) ∧
    (∀ m M t e s : PyVal,
      ((opt_params m M t e s).filter (fun kv => kv.2.truthy)).map Prod.fst =
        (if m.truthy then ["minStartTime"] else []) ++
        (if M.truthy then ["maxStartTime"] else []) ++
        (if t.truthy then ["transient-WindowType"] else []) ++
        (if e.truthy then ["ephemEarth"] else []) ++
        (if s.truthy then ["ephemSun"] else [])) ∧
    (∀ (sft lf : String) (tref : PyVal) (mp : List (String × PyVal))
       (M t e s : PyVal),
      loudest_cmd_args sft lf tref mp (.int 0) M t e s =
        loudest_cmd_args sft lf tref mp .none M t e s) ∧
    (∀ (sft lf : String) (tref : PyVal) (mp : List (String × PyVal))
       (m t e s : PyVal),
      loudest_cmd_args sft lf tref mp m (.int 0) t e s =
        loudest_cmd_args sft lf tref mp m .none t e s) := by
  have hnone : PyVal.truthy PyVal.none = false := rfl
  have hzero : PyVal.truthy (PyVal.int 0) = false := rfl
  refine ⟨?_, ?_, ?_, ?_⟩
  · intro sft lf tref mp m M t e s
    cases hm : m.truthy <;> cases hM : M.truthy <;> cases ht : t.truthy <;>
      cases he : e.truthy <;> cases hs : s.truthy <;>
      simp [CFSv2_params, opt_params, List.filter_cons, hnone, hm, hM, ht, he, hs]
  · intro m M t e s
    cases hm : m.truthy <;> cases hM : M.truthy <;> cases ht : t.truthy <;>
      cases he : e.truthy <;> cases hs : s.truthy <;>
      simp [opt_params, List.filter_cons, hnone, hm, hM, ht, he, hs]
  · intro sft lf tref mp M t e s
    cases hM : M.truthy <;> cases ht : t.truthy <;> cases he : e.truthy <;>
      cases hs : s.truthy <;>
      simp [loudest_cmd_args, CFSv2_params, opt_params, List.filter_cons,
        hnone, hzero, hM, ht, he, hs]
  · intro sft lf tref mp m t e s
    cases hm : m.truthy <;> cases ht : t.truthy <;> cases he : e.truthy <;>
      cases hs : s.truthy <;>
      simp [loudest_cmd_args, CFSv2_params, opt_params, List.filter_cons,
        hnone, hzero, hm, ht, he, hs]
